import Mathlib

set_option maxRecDepth 8192

/- Shallow embedding of `src/js/validator.js` (html-form-validation, v0.2.1).
The DOM-facing state is modelled explicitly: each field container carries its
data attributes, its inner control's value, its `incorrect` class marker and
the text rendered in its `.error` child; the form carries the `validated`
class as a boolean flag.  jQuery / AJAX / event-binding primitives are
collaborators: hook invocations, warnings and the AJAX hand-off are recorded
as events in a trace rather than executed. -/

namespace HtmlFormValidation

/-- Message catalog, embedding one entry of `this.lang` (validator.js lines
81-112).  The `en` table defines the key `symbol` while the code always reads
`lang.symbols`, so the `symbols` lookup is `undefined` for `en`; the field is
therefore an `Option`. -/
structure Catalog where
  emptyField : String
  incorrectPhone : String
  incorrectEmail : String
  incorrectSelect : String
  symbols : Option String
  reqFieldLength : String
  maxFieldLength : String
  minFieldLength : String
  minMaxFirst : String
  minMaxSecond : String
  notEqual : String
deriving DecidableEq

/-- The `ru` catalog (validator.js lines 82-96). -/
def ruCatalog : Catalog where
  emptyField := "Заполните поле"
  incorrectPhone := "Введите корректный номер"
  incorrectEmail := "Введите корректный Email"
  incorrectSelect := "Выберите один из вариантов"
  symbols := some "символов"
  reqFieldLength := "Необходимая длинна поля - "
  maxFieldLength := "Максимальная длинна поля - "
  minFieldLength := "Минимальная длинна поля - "
  minMaxFirst := "Кол-во символов должно быть не более "
  minMaxSecond := " и не менее "
  notEqual := "Значение поля не совпало с ожидаемым"

/-- The `en` catalog (validator.js lines 97-111); note the `symbol`-vs-`symbols`
key slip, hence `symbols := none` (reads of it coerce to the string
"undefined" when concatenated). -/
def enCatalog : Catalog where
  emptyField := "Fill in the field, please"
  incorrectPhone := "Please, enter a valid number"
  incorrectEmail := "Please, enter a valid email"
  incorrectSelect := "Please, select an option"
  symbols := none
  reqFieldLength := "Required field length is - "
  maxFieldLength := "Maximum field length is - "
  minFieldLength := "Minimum field length is - "
  minMaxFirst := "Number of characters should be less than "
  minMaxSecond := " but not less than "
  notEqual := "The field value did not match with the expected value"

/-- JS string coercion used by `+` concatenation: `undefined` renders as
"undefined". -/
def jsStr : Option String → String
  | some s => s
  | none => "undefined"

/-- `this.lang[this.options.lang]` (validator.js line 285 etc.): the table has
exactly the keys `ru` and `en`; any other tag yields `undefined`. -/
def langCatalog (tag : String) : Option Catalog :=
  if tag = "ru" then some ruCatalog
  else if tag = "en" then some enCatalog
  else none

/-- `data-validation-type` values that have a `case` in the dispatch switch of
`validateField` (lines 314-347); `checkbox` is a declared type tag with no
case, it falls through to the defaults like any unknown tag. -/
inductive VType
  | text
  | phone
  | email
  | checkbox
  | radio
  | select
deriving DecidableEq

/-- `data-validation-condition` values recognised by `validateTextField`
(lines 367-409). -/
inductive CondType
  | length
  | equal
deriving DecidableEq

/-- One field container matching (or not) `options.fieldsSelector`, with its
data attributes, inner control state and presentation state.  `errorText` is
the text currently rendered in the `.error` child (`none` = never written).
Numeric `data-` attributes are modelled as `Option Nat` (absent or a numeric
value, jQuery auto-converts numeric attribute strings to numbers). -/
structure Field where
  matchesSelector : Bool := true
  required : Bool := false
  vtype : Option VType := none
  customText : Option String := none
  value : String := ""
  condType : Option CondType := none
  dataLength : Option Nat := none
  dataMaxLength : Option Nat := none
  dataMinLength : Option Nat := none
  dataEqual : Option String := none
  selectValue : Option String := none
  checkedVisibleRadios : Nat := 0
  incorrect : Bool := false
  errorText : Option String := none
deriving DecidableEq

/-- The form: the `validated` class flag plus its field containers. -/
structure Form where
  validFlag : Bool := false
  fields : List Field := []
deriving DecidableEq

/-- Result object of the per-type validate helpers: `{condition, errorText,
length}`.  `condition : Option Bool` distinguishes an unassigned (undefined)
condition from an assigned boolean; only truthiness matters downstream. -/
structure FieldParams where
  condition : Option Bool
  errorText : Option String
  length : Nat
deriving DecidableEq

/-- JS truthiness of a numeric `data-` attribute: `undefined` and `0` are
falsy. -/
def numTruthy : Option Nat → Bool
  | some n => decide (n ≠ 0)
  | none => false

/-- `valueLength <= parseInt(o, 10)`: comparison with `NaN` (absent attribute)
is false. -/
def leNum (len : Nat) : Option Nat → Bool
  | some m => decide (len ≤ m)
  | none => false

/-- `valueLength >= parseInt(o, 10)`: comparison with `NaN` (absent attribute)
is false. -/
def geNum (len : Nat) : Option Nat → Bool
  | some m => decide (m ≤ len)
  | none => false

/-- Truthiness of the `condition` slot: `undefined` is falsy. -/
def condTruthy : Option Bool → Bool
  | some b => b
  | none => false

/-- Whitespace stripped by `ToNumber` on strings: ECMAScript WhiteSpace (TAB,
VT, FF, SP, NBSP, ZWNBSP and the Unicode Space_Separator characters U+1680,
U+2000..U+200A, U+202F, U+205F, U+3000) and LineTerminator (LF, CR, LS,
PS). -/
def isJsWS (c : Char) : Bool :=
  c = ' ' || c = '\t' || c = '\n' || c = '\r' || c = '\x0b' || c = '\x0c' ||
  c = '\u00A0' || c = '\uFEFF' || c = '\u1680' ||
  ('\u2000' ≤ c && c ≤ '\u200A') || c = '\u2028' || c = '\u2029' ||
  c = '\u202F' || c = '\u205F' || c = '\u3000'

/-- Trim leading and trailing JS whitespace from a character list. -/
def trimJs (l : List Char) : List Char :=
  ((l.dropWhile isJsWS).reverse.dropWhile isJsWS).reverse

/-- All characters are the digit `0`. -/
def allZeroDigits (l : List Char) : Bool := l.all (· = '0')

/-- Split a character list at the first `e`/`E` into mantissa and exponent
body (if any). -/
def splitAtExp : List Char → List Char × Option (List Char)
  | [] => ([], none)
  | c :: r =>
    if c = 'e' || c = 'E' then ([], some r)
    else
      let p := splitAtExp r
      (c :: p.1, p.2)

/-- Numeric value of a decimal digit string. -/
def digitsToNat (l : List Char) : Nat :=
  l.foldl (fun a c => 10 * a + (c.toNat - '0'.toNat)) 0

/-- Decimal mantissa `Digits [. Digits]` or `. Digits`; `some (m, f)` when
well-formed, where `m` is the value of all digits run together and `f` the
number of fraction digits (so the mantissa's value is `m / 10^f`). -/
def parseMantissa (l : List Char) : Option (Nat × Nat) :=
  let intPart := l.takeWhile Char.isDigit
  match l.drop intPart.length with
  | [] => if intPart = [] then none else some (digitsToNat intPart, 0)
  | '.' :: frac =>
    if frac.all Char.isDigit && decide (intPart ≠ [] ∨ frac ≠ []) then
      some (digitsToNat (intPart ++ frac), frac.length)
    else none
  | _ => none

/-- Exponent body: optional sign followed by at least one digit; `some` of
its signed value when well-formed. -/
def parseExp : List Char → Option Int
  | [] => none
  | '+' :: r =>
    if decide (r ≠ []) && r.all Char.isDigit then some (digitsToNat r)
    else none
  | '-' :: r =>
    if decide (r ≠ []) && r.all Char.isDigit then some (-(digitsToNat r : Int))
    else none
  | r =>
    if r.all Char.isDigit then some (digitsToNat r) else none

/-- Whether the decimal value `m * 10^E` converts to IEEE-754 binary64 `±0`
under roundTiesToEven (the Number value semantics of `ToNumber`): exactly
zero when `m = 0`, and otherwise when the magnitude is at most `2^-1075`,
half of the smallest subnormal `2^-1074` (the tie at exactly `2^-1075` picks
`0`, the candidate with the even significand).  For `E < 0` the comparison
`m * 10^E ≤ 2^-1075` is decided exactly as `m * 2^1075 ≤ 10^(-E)`. -/
def roundsToZero (m : Nat) (E : Int) : Bool :=
  if m = 0 then true
  else
    match E with
    | Int.ofNat _ => false
    | Int.negSucc k => decide (m * 2 ^ 1075 ≤ 10 ^ (k + 1))

/-- Decimal string literal with optional exponent; `some b` when well-formed,
`b` true exactly when its binary64 Number value is `±0`: a mantissa `m / 10^f`
with exponent `ev` has value `m * 10^(ev - f)`, tested by `roundsToZero` (so
IEEE underflow such as "1e-1000" is zero). -/
def decStrZero (l : List Char) : Option Bool :=
  if l = "Infinity".toList then some false
  else
    match splitAtExp l with
    | (p, none) =>
      (parseMantissa p).map (fun mf => roundsToZero mf.1 (-(mf.2 : Int)))
    | (p, some e) =>
      match parseMantissa p, parseExp e with
      | some mf, some ev => some (roundsToZero mf.1 (ev - (mf.2 : Int)))
      | _, _ => none

/-- Radix-prefixed literal body: `some b` when all characters are digits of
the radix, `b` true when they are all `0`. -/
def radixZero (digitOk : Char → Bool) (l : List Char) : Option Bool :=
  if decide (l ≠ []) && l.all digitOk then some (allZeroDigits l) else none

/-- Hexadecimal digit. -/
def isHexDigitCh (c : Char) : Bool :=
  c.isDigit || ('a' ≤ c && c ≤ 'f') || ('A' ≤ c && c ≤ 'F')

/-- JS abstract equality `s == 0` for a string `s`: `ToNumber(s) == 0`.
After trimming ECMAScript whitespace, the empty string is `+0`;
`0x`/`0b`/`0o` integer literals are zero when all their digits are zero (they
can overflow but never underflow); an optionally signed decimal literal is
zero when its exactly-rounded binary64 value is `±0`, including IEEE
underflow (e.g. "1e-1000"); `Infinity` is nonzero; anything unparsable is
`NaN`, which is not equal to 0.  The exact rounded value is used throughout:
the ECMAScript allowance to approximate literals with more than 20
significant digits is not exercised (major engines round exactly, and the
choice can only matter at the tie `2^-1075` itself, which needs hundreds of
significant digits to write in decimal). -/
def jsEqZero (s : String) : Bool :=
  match trimJs s.toList with
  | [] => true
  | '0' :: 'x' :: r => (radixZero isHexDigitCh r).getD false
  | '0' :: 'X' :: r => (radixZero isHexDigitCh r).getD false
  | '0' :: 'b' :: r => (radixZero (fun c => c = '0' || c = '1') r).getD false
  | '0' :: 'B' :: r => (radixZero (fun c => c = '0' || c = '1') r).getD false
  | '0' :: 'o' :: r => (radixZero (fun c => '0' ≤ c && c ≤ '7') r).getD false
  | '0' :: 'O' :: r => (radixZero (fun c => '0' ≤ c && c ≤ '7') r).getD false
  | '+' :: r => (decStrZero r).getD false
  | '-' :: r => (decStrZero r).getD false
  | r => (decStrZero r).getD false

/-- `validateTextField` (lines 358-416): reads the inner control's value and
`data-validation-condition`, and computes `{condition, errorText, length}`.
With no recognised condition attribute, or a `length` condition whose three
bounds are all falsy, both `condition` and `errorText` stay unassigned
(`undefined`). -/
def validateTextField (L : Catalog) (fl : Field) : FieldParams :=
  let valueLength := fl.value.length
  match fl.condType with
  | some CondType.length =>
    if numTruthy fl.dataLength then
      { condition := some (decide (valueLength = fl.dataLength.getD 0)),
        errorText := some (L.reqFieldLength ++ toString (fl.dataLength.getD 0)
          ++ " " ++ jsStr L.symbols),
        length := valueLength }
    else if numTruthy fl.dataMaxLength && numTruthy fl.dataMinLength then
      { condition := some (leNum valueLength fl.dataMaxLength
          && geNum valueLength fl.dataMinLength),
        errorText := some (L.minMaxFirst ++ toString (fl.dataMaxLength.getD 0)
          ++ L.minMaxSecond ++ toString (fl.dataMinLength.getD 0)),
        length := valueLength }
    else if numTruthy fl.dataMaxLength then
      { condition := some (leNum valueLength fl.dataMaxLength),
        errorText := some (L.maxFieldLength ++ toString (fl.dataMaxLength.getD 0)
          ++ " " ++ jsStr L.symbols),
        length := valueLength }
    else if numTruthy fl.dataMinLength then
      { condition := some (geNum valueLength fl.dataMinLength),
        errorText := some (L.minFieldLength ++ toString (fl.dataMinLength.getD 0)
          ++ " " ++ jsStr L.symbols),
        length := valueLength }
    else
      { condition := none, errorText := none, length := valueLength }
  | some CondType.equal =>
    { condition := some (fl.dataEqual == some fl.value),
      errorText := some L.notEqual,
      length := valueLength }
  | none => { condition := none, errorText := none, length := valueLength }

/-- `validateEmailField` (lines 423-432): the e-mail regular expression of
`Validator.validateEmail` is not re-implemented; the match outcome is the
collaborator `emailOk`.  The returned object carries no `errorText` key. -/
def validateEmailField (emailOk : String → Bool) (fl : Field) : FieldParams :=
  { condition := some (emailOk fl.value),
    errorText := none,
    length := fl.value.length }

/-- `validateRadioField` (lines 439-443): at least one checked and visible
radio control inside the field. -/
def validateRadioField (fl : Field) : Bool :=
  decide (1 ≤ fl.checkedVisibleRadios)

/-- Truthiness of `value && value != 0` (validator.js line 452): a missing
selection (`null`/`undefined`) or the empty string is falsy, and `value != 0`
is JS loose equality, coercing the string through `ToNumber`. -/
def selectCondition : Option String → Bool
  | none => false
  | some v => decide (v ≠ "") && !jsEqZero v

/-- `validateSelectField` (lines 450-458): `condition = value && value != 0`;
length is forced to 1. -/
def validateSelectField (fl : Field) : FieldParams :=
  { condition := some (selectCondition fl.selectValue),
    errorText := none,
    length := 1 }

/-- The dispatch switch of `validateField` (lines 305-347), producing the
`fieldParams` that `checkFieldValidness` consumes.  The initialized defaults
`{condition: true, errorText: lang.emptyField, length: 1}` survive for the
`radio` case (only `condition` is replaced), for `checkbox` (no case in the
switch) and for an absent/unknown type. -/
def fieldParamsFor (L : Catalog) (emailOk : String → Bool) (fl : Field) :
    FieldParams :=
  let defaults : FieldParams :=
    { condition := some true, errorText := some L.emptyField, length := 1 }
  match fl.vtype with
  | some VType.text => validateTextField L fl
  | some VType.phone =>
    { validateTextField L fl with errorText := some L.incorrectPhone }
  | some VType.email =>
    { validateEmailField emailOk fl with errorText := some L.incorrectEmail }
  | some VType.radio =>
    { defaults with condition := some (validateRadioField fl) }
  | some VType.select =>
    { validateSelectField fl with errorText := some L.incorrectSelect }
  | some VType.checkbox => defaults
  | none => defaults

/-- `throwFieldError` (lines 268-273): adds the `incorrect` class and writes the
error text into the `.error` child.  jQuery's `.text(undefined)` is a no-op
(the setter branch is skipped), so an `undefined` errorText leaves the
rendered message unchanged. -/
def throwFieldError (fl : Field) (errorText : Option String) : Field :=
  { fl with
    incorrect := true,
    errorText :=
      match errorText with
      | some s => some s
      | none => fl.errorText }

/-- `checkFieldValidness` (lines 283-298).  A non-empty `data-validation-text`
overrides the computed errorText; an empty value always throws the locale's
`emptyField` message; a falsy condition throws the (possibly overridden)
errorText; otherwise the `validated` class is added to the form, reported
here as the returned boolean. -/
def checkFieldValidness (L : Catalog) (fl : Field) (condition : Option Bool)
    (errorText : Option String) (valueLength : Nat) : Field × Bool :=
  let errorText2 :=
    match fl.customText with
    | some s => if s ≠ "" then some s else errorText
    | none => errorText
  if valueLength = 0 then (throwFieldError fl (some L.emptyField), false)
  else if condTruthy condition = false then (throwFieldError fl errorText2, false)
  else (fl, true)

/-- `validateField` (lines 305-350): dispatch then apply; returns the updated
field and whether the form-level `validated` class was added. -/
def validateField (L : Catalog) (emailOk : String → Bool) (fl : Field) :
    Field × Bool :=
  let p := fieldParamsFor L emailOk fl
  checkFieldValidness L fl p.condition p.errorText p.length

/-- A validation pass is recorded as a trace of externally observable events:
hook invocations, the non-function-callback warning, field evaluations (by
index) and the AJAX hand-off. -/
inductive Ev
  | reset
  | fieldEval (i : Nat)
  | beforeHook
  | onValidHook
  | ajaxSend
  | afterHook
  | warn
deriving DecidableEq

/-- A configured callback slot: absent (`null`/`undefined`), a function, or a
non-callable non-nullish value. -/
inductive Hook
  | notSet
  | fn
  | junk
deriving DecidableEq

/-- `checkAndRunCallback` (lines 163-172): invoke a function, warn on a
non-callable non-nullish value (`callback != undefined` is loose, so `null`
stays silent), else do nothing.  Hooks are collaborators, so the invocation is
recorded as the given event. -/
def checkAndRunCallback (h : Hook) (e : Ev) : List Ev :=
  match h with
  | Hook.fn => [e]
  | Hook.junk => [Ev.warn]
  | Hook.notSet => []

/-- A Validator instance as the pass functions see it: selected catalog,
configured hooks, truthiness of the resolved AJAX options (`options.ajax`
defaults to `{}`, which is truthy) and the form. -/
structure Validator where
  L : Catalog
  beforeValidation : Hook := Hook.notSet
  afterValidation : Hook := Hook.notSet
  onValid : Hook := Hook.notSet
  ajaxTruthy : Bool := true
  form : Form
deriving DecidableEq

/-- `formIsValid` (lines 179-183): no descendant carries the `incorrect`
class, and the form carries the `validated` class. -/
def formIsValid (f : Form) : Bool :=
  f.fields.all (fun fl => !fl.incorrect) && f.validFlag

/-- `removeIncorrectState` (lines 203-209): remove the `incorrect` class from
every field matching `options.fieldsSelector`; nothing else is touched. -/
def removeIncorrectState (f : Form) : Form :=
  { f with
    fields := f.fields.map (fun fl =>
      if fl.matchesSelector then { fl with incorrect := false } else fl) }

/-- The `.each` loop of `validateAllFields` (lines 506-518), walking the
fields found by `options.fieldsSelector` and evaluating those whose
`data-validation` attribute is exactly "required".  Returns the updated
fields, whether any evaluated field added the `validated` class, and the
evaluation events (indexed over the whole field list). -/
def validateFieldsAux (L : Catalog) (emailOk : String → Bool) :
    Nat → List Field → List Field × Bool × List Ev
  | _, [] => ([], false, [])
  | i, fl :: rest =>
    if fl.matchesSelector && fl.required then
      ((validateField L emailOk fl).1
          :: (validateFieldsAux L emailOk (i + 1) rest).1,
        ((validateField L emailOk fl).2
          || (validateFieldsAux L emailOk (i + 1) rest).2.1),
        Ev.fieldEval i :: (validateFieldsAux L emailOk (i + 1) rest).2.2)
    else
      (fl :: (validateFieldsAux L emailOk (i + 1) rest).1,
        (validateFieldsAux L emailOk (i + 1) rest).2.1,
        (validateFieldsAux L emailOk (i + 1) rest).2.2)

/-- `validateAllFields` (lines 506-518) at the form level: the `validated`
class is only ever added during a pass, so the final flag is the old flag or
any field-level addition. -/
def validateAllFields (L : Catalog) (emailOk : String → Bool) (f : Form) :
    Form × List Ev :=
  let r := validateFieldsAux L emailOk 0 f.fields
  ({ validFlag := f.validFlag || r.2.1, fields := r.1 }, r.2.2)

/-- `sendIfValidated` (lines 475-499), called with no argument so
`ajaxOptions = options.ajax`: runs the `beforeValidation` callback, then, if
`formIsValid()`, the `onValid` callback and (when the AJAX options are
truthy) the AJAX hand-off, then the `afterValidation` callback.  Pure event
trace: hook bodies are collaborators and do not change the form here. -/
def sendIfValidated (v : Validator) : List Ev :=
  checkAndRunCallback v.beforeValidation Ev.beforeHook
    ++ (if formIsValid v.form then
          checkAndRunCallback v.onValid Ev.onValidHook
            ++ (if v.ajaxTruthy then [Ev.ajaxSend] else [])
        else [])
    ++ checkAndRunCallback v.afterValidation Ev.afterHook

/-- `runFormValidation` (lines 525-530):
`removeIncorrectState().validateAllFields().sendIfValidated()`. -/
def runFormValidation (emailOk : String → Bool) (v : Validator) :
    Validator × List Ev :=
  let f1 := removeIncorrectState v.form
  let r := validateAllFields v.L emailOk f1
  let v2 : Validator := { v with form := r.1 }
  (v2, Ev.reset :: r.2 ++ sendIfValidated v2)

/-- User-supplied constructor options (absent entries fall back to the
defaults in `$.extend`, lines 64-73). -/
structure UserOptions where
  lang : Option String := none
  fieldsSelector : Option String := none
  modal : Option Bool := none
  removeErrorOnFocusOut : Option Bool := none
deriving DecidableEq

/-- `this.options` after `$.extend(true, defaults, options)` (lines 64-73). -/
structure OptionsR where
  lang : String
  fieldsSelector : String
  modal : Bool
  removeErrorOnFocusOut : Bool
deriving DecidableEq

/-- The `$.extend` merge of user options over the defaults. -/
def extendDefaults (u : UserOptions) : OptionsR where
  lang := u.lang.getD "en"
  fieldsSelector := u.fieldsSelector.getD ".form-input"
  modal := u.modal.getD false
  removeErrorOnFocusOut := u.removeErrorOnFocusOut.getD false

/-- Construction-time failure taxonomy named by the specification. -/
inductive ConfigurationError
  | unknownLocale
  | malformedSelector
deriving DecidableEq

/-- The `Validator` constructor (lines 48-119): stores the form, extends the
options, installs both catalogs and calls `init`.  It contains no validation
of the locale (or of anything else) and no throw path, so it always
succeeds. -/
def construct (u : UserOptions) : Except ConfigurationError OptionsR :=
  Except.ok (extendDefaults u)

/-- A required text field whose input is empty, used as a concrete pass
input. -/
def emptyTextField : Field :=
  { required := true, vtype := some VType.text, value := "" }

/-- A validator with all three hooks configured as functions, over a form
with a single required empty text field. -/
def hookedValidator : Validator :=
  { L := enCatalog,
    beforeValidation := Hook.fn,
    afterValidation := Hook.fn,
    onValid := Hook.fn,
    form := { validFlag := false, fields := [emptyTextField] } }

/-- A validator whose form still carries the `validated` flag from an earlier
pass and has no fields at all; `onValid` is configured, AJAX disabled. -/
def staleFlagValidator : Validator :=
  { L := enCatalog,
    onValid := Hook.fn,
    ajaxTruthy := false,
    form := { validFlag := true, fields := [] } }

/-- A form carrying the `validated` flag and one incorrect field, for the
reset-step frame statements. -/
def staleForm : Form :=
  { validFlag := true,
    fields := [{ matchesSelector := true, incorrect := true,
                 errorText := some "old message" }] }

/-- C1: `formIsValid` returns true iff no field carries the `incorrect`
marker and the form carries the `validated` flag; equivalently it returns
false whenever some field is incorrect or the flag is absent. -/
theorem C1_formIsValid_iff (f : Form) :
    formIsValid f = true ↔
      ((∀ fl ∈ f.fields, fl.incorrect = false) ∧ f.validFlag = true) := by
  simp [formIsValid, List.all_eq_true]

/-- C2: the code violates the claimed ordering: in `runFormValidation` the
field evaluation happens inside `validateAllFields`, which runs before
`sendIfValidated` invokes the `beforeValidation` hook.  On a form with one
required empty text field and all hooks configured, the observed trace is
reset, field evaluation, beforeValidation, afterValidation — the hook fires
after the field was evaluated, contradicting the claim (and the code's own
JSDoc "function performed before form validation"). -/
theorem C2_trace_fieldEval_precedes_beforeHook :
    (runFormValidation (fun _ => false) hookedValidator).2 =
      [Ev.reset, Ev.fieldEval 0, Ev.beforeHook, Ev.afterHook] := by
  rfl

/-- C3 counterexample: the `validated` flag is not reset at the start of a
pass.  A validator whose form kept the flag from an earlier pass and has no
fields runs a fresh pass in which nothing is evaluated, yet `formIsValid`
holds and the `onValid` hook fires; the flag also survives the whole pass. -/
theorem C3_counterexample :
    (runFormValidation (fun _ => false) staleFlagValidator).2 =
        [Ev.reset, Ev.onValidHook] ∧
      (runFormValidation (fun _ => false)
        staleFlagValidator).1.form.validFlag = true ∧
      (removeIncorrectState staleForm).validFlag = true := by
  exact ⟨rfl, rfl, rfl⟩

/-- C3 amended: at the start of every pass only the per-field `incorrect`
markers (of fields matching the selector) are reset; the form-level
`validated` flag is left untouched by the reset step and, being monotone, a
flag set in a previous pass survives into the current pass's `formIsValid`
decision. -/
theorem C3_amended_reset_spares_validFlag (f : Form) (emailOk : String → Bool)
    (v : Validator) (hv : v.form.validFlag = true) :
    (removeIncorrectState f).validFlag = f.validFlag ∧
      (∀ fl ∈ (removeIncorrectState f).fields,
        fl.matchesSelector = true → fl.incorrect = false) ∧
      (runFormValidation emailOk v).1.form.validFlag = true := by
  refine ⟨rfl, ?_, ?_⟩
  · intro fl hfl hsel
    simp only [removeIncorrectState, List.mem_map] at hfl
    obtain ⟨fl0, _, rfl⟩ := hfl
    by_cases h : fl0.matchesSelector <;> simp_all
  · simp only [runFormValidation, validateAllFields, removeIncorrectState, hv,
      Bool.true_or]

/-- C3 amended, witness: the amended statement at the concrete stale form and
validator. -/
theorem C3_amended_witness :
    (removeIncorrectState staleForm).validFlag = staleForm.validFlag ∧
      (∀ fl ∈ (removeIncorrectState staleForm).fields,
        fl.matchesSelector = true → fl.incorrect = false) ∧
      (runFormValidation (fun _ => false)
        staleFlagValidator).1.form.validFlag = true :=
  C3_amended_reset_spares_validFlag staleForm (fun _ => false)
    staleFlagValidator rfl

/-- A field with a non-empty custom `data-validation-text`, for the message
precedence statements. -/
def customTextField : Field :=
  { required := true, vtype := some VType.text, value := "",
    customText := some "X" }

/-- C4: whenever the evaluated valueLength is 0, `checkFieldValidness` marks
the field incorrect and renders the locale's emptyField message, whatever the
custom text and the condition are; a non-empty custom text replaces the
computed errorText exactly on the non-empty falsy-condition path; and on the
pass path the field is untouched. -/
theorem C4_emptiness_precedence (L : Catalog) (fl : Field)
    (condition : Option Bool) (errorText : Option String)
    (hne : ∀ s, fl.customText = some s → s ≠ "") :
    ((checkFieldValidness L fl condition errorText 0).1.incorrect = true ∧
      (checkFieldValidness L fl condition errorText 0).1.errorText =
        some L.emptyField) ∧
      (∀ len, len ≠ 0 → condTruthy condition = false →
        (checkFieldValidness L fl condition errorText len).1.errorText =
          match fl.customText with
          | some s => some s
          | none =>
            match errorText with
            | some s => some s
            | none => fl.errorText) ∧
      (∀ len, len ≠ 0 → condTruthy condition = true →
        (checkFieldValidness L fl condition errorText len).1 = fl) := by
  refine ⟨⟨?_, ?_⟩, ?_, ?_⟩
  · simp [checkFieldValidness, throwFieldError]
  · simp [checkFieldValidness, throwFieldError]
  · intro len hlen hcond
    cases hct : fl.customText with
    | none => simp [checkFieldValidness, throwFieldError, hlen, hcond, hct]
    | some s =>
      have hs : s ≠ "" := hne s hct
      simp [checkFieldValidness, throwFieldError, hlen, hcond, hct, hs]
  · intro len hlen hcond
    simp [checkFieldValidness, hlen, hcond]

/-- C4 witness: at the English catalog with custom text "X" and a false
condition, length 0 renders emptyField, length 3 renders "X", and a true
condition with length 3 leaves the field untouched. -/
theorem C4_emptiness_precedence_witness :
    ((checkFieldValidness enCatalog customTextField (some false)
          (some "computed") 0).1.incorrect = true ∧
      (checkFieldValidness enCatalog customTextField (some false)
          (some "computed") 0).1.errorText = some enCatalog.emptyField) ∧
      (checkFieldValidness enCatalog customTextField (some false)
          (some "computed") 3).1.errorText = some "X" ∧
      (checkFieldValidness enCatalog customTextField (some true)
          (some "computed") 3).1 = customTextField := by
  have h := C4_emptiness_precedence enCatalog customTextField (some false)
    (some "computed") (by intro s hs; cases hs; decide)
  have h2 := C4_emptiness_precedence enCatalog customTextField (some true)
    (some "computed") (by intro s hs; cases hs; decide)
  exact ⟨h.1, h.2.1 3 (by decide) rfl, h2.2.2 3 (by decide) rfl⟩

/-- A required text field with a non-empty value and no
`data-validation-condition` attribute. -/
def plainTextField : Field :=
  { required := true, vtype := some VType.text, value := "hi" }

/-- C5 counterexample: a Text field with non-empty value "hi" and no
condition attribute does not pass: its condition is left `undefined` (not
true) and `validateField` marks it incorrect. -/
theorem C5_counterexample :
    (fieldParamsFor enCatalog (fun _ => false) plainTextField).condition =
        none ∧
      (validateField enCatalog (fun _ => false)
        plainTextField).1.incorrect = true := by
  exact ⟨rfl, rfl⟩

/-- C5 amended: for a Text-type field with non-empty value, if the inner
control carries no condition attribute, or a Length condition with all of
length/min-length/max-length absent or zero (falsy), the condition stays
unassigned (`undefined`, which is falsy), so the field is marked incorrect;
with no custom text the computed errorText is also `undefined` and the
rendered message is left unchanged. -/
theorem C5_amended_no_condition_fails (L : Catalog) (emailOk : String → Bool)
    (fl : Field) (hty : fl.vtype = some VType.text)
    (hval : fl.value.length ≠ 0)
    (hcond : fl.condType = none ∨
      (fl.condType = some CondType.length ∧ numTruthy fl.dataLength = false ∧
        numTruthy fl.dataMaxLength = false ∧
        numTruthy fl.dataMinLength = false)) :
    (fieldParamsFor L emailOk fl).condition = none ∧
      (validateField L emailOk fl).1.incorrect = true ∧
      (fl.customText = none →
        (validateField L emailOk fl).1.errorText = fl.errorText) := by
  have hp : fieldParamsFor L emailOk fl =
      { condition := none, errorText := none, length := fl.value.length } := by
    rcases hcond with h | ⟨h, h1, h2, h3⟩
    · simp [fieldParamsFor, validateTextField, hty, h]
    · simp [fieldParamsFor, validateTextField, hty, h, h1, h2, h3]
  refine ⟨by simp [hp], ?_, ?_⟩
  · simp [validateField, hp, checkFieldValidness, hval, condTruthy,
      throwFieldError]
  · intro hct
    simp [validateField, hp, checkFieldValidness, hval, condTruthy, hct,
      throwFieldError]

/-- C5 amended, witness: the amended statement at the concrete plain text
field. -/
theorem C5_amended_witness :
    (fieldParamsFor enCatalog (fun _ => true) plainTextField).condition =
        none ∧
      (validateField enCatalog (fun _ => true)
          plainTextField).1.incorrect = true ∧
      (plainTextField.customText = none →
        (validateField enCatalog (fun _ => true)
          plainTextField).1.errorText = plainTextField.errorText) :=
  C5_amended_no_condition_fails enCatalog (fun _ => true) plainTextField rfl
    (by decide) (Or.inl rfl)

/-- The select condition is falsy exactly on a missing selection, the empty
string, or a value loosely equal to the number 0. -/
theorem selectCondition_eq_false_iff (o : Option String) :
    selectCondition o = false ↔
      (o = none ∨ o = some "" ∨ ∃ v, o = some v ∧ jsEqZero v = true) := by
  cases o with
  | none => simp [selectCondition]
  | some v =>
    by_cases hv : v = "" <;> by_cases hz : jsEqZero v = true <;>
      simp [selectCondition, hv, hz]

/-- A required select field whose selected value is "00": truthy, and not the
string "0", yet loosely equal to the number 0. -/
def zeroZeroSelectField : Field :=
  { required := true, vtype := some VType.select, selectValue := some "00" }

/-- A required select field whose selected value is "2". -/
def okSelectField : Field :=
  { required := true, vtype := some VType.select, selectValue := some "2" }

/-- A required select field whose selected value is a single non-breaking
space (U+00A0): `ToNumber` trims it as whitespace, leaving the empty string,
which coerces to 0. -/
def nbspSelectField : Field :=
  { required := true, vtype := some VType.select,
    selectValue := some "\u00A0" }

/-- A required select field whose selected value is "1e-1000": nonzero as a
mathematical value but underflowing to `+0` as a binary64 Number. -/
def underflowSelectField : Field :=
  { required := true, vtype := some VType.select,
    selectValue := some "1e-1000" }

/-- C6 counterexample: the claim says a select passes for every truthy
selected value other than the string "0", but the code compares with JS loose
equality (`value != 0`): the value "00" is truthy and differs from "0", yet
the field fails with the incorrectSelect message. -/
theorem C6_counterexample :
    ("00" = "0" → False) ∧
      (validateField enCatalog (fun _ => false)
          zeroZeroSelectField).1.incorrect = true ∧
      (validateField enCatalog (fun _ => false)
          zeroZeroSelectField).1.errorText =
        some enCatalog.incorrectSelect := by
  exact ⟨by decide, rfl, rfl⟩

/-- C6 amended: a Select-type field (clean of a previous incorrect marker and
without custom text) fails with the incorrectSelect message exactly when the
selected value is absent, empty, or loosely equal to the number 0 under JS
`==` coercion (e.g. "0", "00", " ", "0.0"); for every other value it passes
untouched; its length is forced to 1 so the emptiness path never fires. -/
theorem C6_amended_select (L : Catalog) (emailOk : String → Bool) (fl : Field)
    (hty : fl.vtype = some VType.select) (hct : fl.customText = none)
    (hinc : fl.incorrect = false) :
    (fieldParamsFor L emailOk fl).length = 1 ∧
      ((validateField L emailOk fl).1.incorrect = true ↔
        (fl.selectValue = none ∨ fl.selectValue = some "" ∨
          ∃ v, fl.selectValue = some v ∧ jsEqZero v = true)) ∧
      ((validateField L emailOk fl).1.incorrect = true →
        (validateField L emailOk fl).1.errorText =
          some L.incorrectSelect) ∧
      ((validateField L emailOk fl).1.incorrect = false →
        (validateField L emailOk fl).1 = fl) := by
  have hp : fieldParamsFor L emailOk fl =
      { condition := some (selectCondition fl.selectValue),
        errorText := some L.incorrectSelect, length := 1 } := by
    simp [fieldParamsFor, validateSelectField, hty]
  have key : validateField L emailOk fl =
      if selectCondition fl.selectValue = false
      then (throwFieldError fl (some L.incorrectSelect), false)
      else (fl, true) := by
    by_cases hc : selectCondition fl.selectValue = false <;>
      simp [validateField, hp, checkFieldValidness, hct, condTruthy, hc]
  by_cases hc : selectCondition fl.selectValue = false
  · refine ⟨by simp [hp], ?_, ?_, ?_⟩
    · rw [key]
      simp only [hc, if_true]
      simp [throwFieldError, ← selectCondition_eq_false_iff, hc]
    · intro _
      rw [key]
      simp [hc, throwFieldError]
    · intro hfalse
      rw [key] at hfalse
      simp [hc, throwFieldError] at hfalse
  · refine ⟨by simp [hp], ?_, ?_, ?_⟩
    · rw [key]
      simp only [hc, if_false]
      simp [hinc, ← selectCondition_eq_false_iff, hc]
    · intro htrue
      rw [key] at htrue
      simp [hc, hinc] at htrue
    · intro _
      rw [key]
      simp [hc]

/-- C6 amended, witness: the select with value "2" passes untouched, while
the selects with values "00", a non-breaking space (whitespace-trimmed to the
empty string by ToNumber) and "1e-1000" (binary64 underflow to `+0`) all fail
with incorrectSelect. -/
theorem C6_amended_select_witness :
    ((fieldParamsFor enCatalog (fun _ => false) okSelectField).length = 1 ∧
      ((validateField enCatalog (fun _ => false)
          okSelectField).1.incorrect = true ↔
        (okSelectField.selectValue = none ∨
          okSelectField.selectValue = some "" ∨
          ∃ v, okSelectField.selectValue = some v ∧ jsEqZero v = true)) ∧
      ((validateField enCatalog (fun _ => false)
          okSelectField).1.incorrect = true →
        (validateField enCatalog (fun _ => false)
          okSelectField).1.errorText = some enCatalog.incorrectSelect) ∧
      ((validateField enCatalog (fun _ => false)
          okSelectField).1.incorrect = false →
        (validateField enCatalog (fun _ => false)
          okSelectField).1 = okSelectField)) ∧
      (validateField enCatalog (fun _ => false)
          zeroZeroSelectField).1.incorrect = true ∧
      (validateField enCatalog (fun _ => false)
          nbspSelectField).1.incorrect = true ∧
      (validateField enCatalog (fun _ => false)
          underflowSelectField).1.incorrect = true :=
  ⟨C6_amended_select enCatalog (fun _ => false) okSelectField rfl rfl rfl,
    ((C6_amended_select enCatalog (fun _ => false) zeroZeroSelectField rfl rfl
        rfl).2.1).mpr (Or.inr (Or.inr ⟨"00", rfl, by decide⟩)),
    ((C6_amended_select enCatalog (fun _ => false) nbspSelectField rfl rfl
        rfl).2.1).mpr (Or.inr (Or.inr ⟨"\u00A0", rfl, by decide⟩)),
    ((C6_amended_select enCatalog (fun _ => false) underflowSelectField rfl
        rfl rfl).2.1).mpr (Or.inr (Or.inr ⟨"1e-1000", rfl, by decide⟩))⟩

/-- User options selecting the unsupported locale "de". -/
def deOptions : UserOptions := { lang := some "de" }

/-- C7 counterexample: constructing with the unsupported locale "de" does not
fail — the constructor has no validation and no throw path, so it returns a
fully-built options object with `lang = "de"`. -/
theorem C7_counterexample :
    construct deOptions =
      Except.ok { lang := "de", fieldsSelector := ".form-input",
                  modal := false, removeErrorOnFocusOut := false } := by
  rfl

/-- C7 amended: construction succeeds for every locale tag (no
ConfigurationError is ever raised); "en" and "ru" select their catalogs,
while any other tag has no catalog at all, so the failure surfaces only later
— as a runtime error when a validation pass dereferences the undefined
catalog — never at construction time. -/
theorem C7_amended_construction_total (u : UserOptions) (s : String)
    (hen : s ≠ "en") (hru : s ≠ "ru") :
    (construct u).isOk = true ∧
      (construct u) = Except.ok (extendDefaults u) ∧
      langCatalog "en" = some enCatalog ∧
      langCatalog "ru" = some ruCatalog ∧
      langCatalog s = none := by
  refine ⟨rfl, rfl, rfl, rfl, ?_⟩
  simp [langCatalog, hen, hru]

/-- C7 amended, witness: the amended statement at the "de" options. -/
theorem C7_amended_witness :
    (construct deOptions).isOk = true ∧
      (construct deOptions) = Except.ok (extendDefaults deOptions) ∧
      langCatalog "en" = some enCatalog ∧
      langCatalog "ru" = some ruCatalog ∧
      langCatalog "de" = none :=
  C7_amended_construction_total deOptions "de" (by decide) (by decide)

/-- A required radio field with zero checked-and-visible radio controls and
no custom text. -/
def uncheckedRadioField : Field :=
  { required := true, vtype := some VType.radio }

/-- C9: a required Radio-type field with zero checked-and-visible radios and
no custom text is marked incorrect and its error element shows the locale's
emptyField message — the radio branch replaces only the condition, keeping
the default errorText (emptyField) and the forced length 1. -/
theorem C9_radio_unchecked_shows_emptyField (L : Catalog)
    (emailOk : String → Bool) (fl : Field)
    (hty : fl.vtype = some VType.radio) (hck : fl.checkedVisibleRadios = 0)
    (hct : fl.customText = none) :
    (fieldParamsFor L emailOk fl).condition = some false ∧
      (fieldParamsFor L emailOk fl).length = 1 ∧
      (validateField L emailOk fl).1.incorrect = true ∧
      (validateField L emailOk fl).1.errorText = some L.emptyField := by
  have hp : fieldParamsFor L emailOk fl =
      { condition := some false, errorText := some L.emptyField,
        length := 1 } := by
    simp [fieldParamsFor, validateRadioField, hty, hck]
  refine ⟨by simp [hp], by simp [hp], ?_, ?_⟩ <;>
    simp [validateField, hp, checkFieldValidness, hct, condTruthy,
      throwFieldError]

/-- C9 witness: the concrete unchecked radio field at the English catalog. -/
theorem C9_radio_witness :
    (fieldParamsFor enCatalog (fun _ => false)
          uncheckedRadioField).condition = some false ∧
      (fieldParamsFor enCatalog (fun _ => false)
          uncheckedRadioField).length = 1 ∧
      (validateField enCatalog (fun _ => false)
          uncheckedRadioField).1.incorrect = true ∧
      (validateField enCatalog (fun _ => false)
          uncheckedRadioField).1.errorText = some enCatalog.emptyField :=
  C9_radio_unchecked_shows_emptyField enCatalog (fun _ => false)
    uncheckedRadioField rfl rfl rfl

/-- A two-field form: a matching incorrect field with a rendered message, and
a non-matching incorrect field. -/
def twoFieldForm : Form :=
  { validFlag := true,
    fields := [{ matchesSelector := true, incorrect := true,
                 errorText := some "msg one" },
               { matchesSelector := false, incorrect := true,
                 errorText := some "msg two" }] }

/-- C10: `removeIncorrectState` clears exactly the `incorrect` marker of the
fields matching the configured selector; the form-level valid flag, the
rendered error texts, and every other component of every field (and all
fields not matching the selector entirely) are left as they were. -/
theorem C10_removeIncorrectState_frame (f : Form) (i : Nat)
    (h : i < f.fields.length)
    (h2 : i < (removeIncorrectState f).fields.length) :
    (removeIncorrectState f).validFlag = f.validFlag ∧
      (removeIncorrectState f).fields.length = f.fields.length ∧
      ((removeIncorrectState f).fields.get ⟨i, h2⟩).incorrect =
        (if (f.fields.get ⟨i, h⟩).matchesSelector then false
         else (f.fields.get ⟨i, h⟩).incorrect) ∧
      ((removeIncorrectState f).fields.get ⟨i, h2⟩) =
        { f.fields.get ⟨i, h⟩ with
          incorrect := if (f.fields.get ⟨i, h⟩).matchesSelector then false
            else (f.fields.get ⟨i, h⟩).incorrect } := by
  have hlen : (removeIncorrectState f).fields.length = f.fields.length := by
    simp [removeIncorrectState]
  have hget : (removeIncorrectState f).fields.get ⟨i, h2⟩ =
      if (f.fields.get ⟨i, h⟩).matchesSelector
      then { f.fields.get ⟨i, h⟩ with incorrect := false }
      else f.fields.get ⟨i, h⟩ := by
    simp [removeIncorrectState, List.get_eq_getElem, List.getElem_map]
  refine ⟨rfl, hlen, ?_, ?_⟩ <;>
    · rw [hget]
      by_cases hm : (f.fields.get ⟨i, h⟩).matchesSelector = true
      · rw [if_pos hm, if_pos hm]
      · rw [if_neg hm, if_neg hm]

/-- C10 witness: the frame statement at the concrete two-field form, index 0
and index 1 both reachable through the theorem. -/
theorem C10_removeIncorrectState_frame_witness :
    ((removeIncorrectState twoFieldForm).validFlag = twoFieldForm.validFlag ∧
      (removeIncorrectState twoFieldForm).fields.length =
        twoFieldForm.fields.length ∧
      ((removeIncorrectState twoFieldForm).fields.get
          ⟨0, by decide⟩).incorrect =
        (if (twoFieldForm.fields.get ⟨0, by decide⟩).matchesSelector then false
         else (twoFieldForm.fields.get ⟨0, by decide⟩).incorrect) ∧
      ((removeIncorrectState twoFieldForm).fields.get ⟨0, by decide⟩) =
        { twoFieldForm.fields.get ⟨0, by decide⟩ with
          incorrect :=
            if (twoFieldForm.fields.get ⟨0, by decide⟩).matchesSelector
            then false
            else (twoFieldForm.fields.get ⟨0, by decide⟩).incorrect }) ∧
      ((removeIncorrectState twoFieldForm).fields.get ⟨1, by decide⟩) =
        twoFieldForm.fields.get ⟨1, by decide⟩ := by
  refine ⟨C10_removeIncorrectState_frame twoFieldForm 0 (by decide)
    (by decide), ?_⟩
  have h := (C10_removeIncorrectState_frame twoFieldForm 1 (by decide)
    (by decide)).2.2.2
  simpa using h

/-- Every event emitted by the field-evaluation loop is a `fieldEval`. -/
theorem validateFieldsAux_events (L : Catalog) (emailOk : String → Bool) :
    ∀ (i : Nat) (fs : List Field) (e : Ev),
      e ∈ (validateFieldsAux L emailOk i fs).2.2 → ∃ j, e = Ev.fieldEval j := by
  intro i fs
  induction fs generalizing i with
  | nil =>
    intro e he
    simp [validateFieldsAux] at he
  | cons fl rest ih =>
    intro e he
    by_cases hreq : (fl.matchesSelector && fl.required) = true
    · simp only [validateFieldsAux] at he
      rw [if_pos hreq] at he
      simp only [List.mem_cons] at he
      rcases he with h | h
      · exact ⟨i, h⟩
      · exact ih (i + 1) e h
    · simp only [validateFieldsAux] at he
      rw [if_neg hreq] at he
      exact ih (i + 1) e he

/-- The field-evaluation loop emits no occurrence of a non-`fieldEval`
event. -/
theorem validateFieldsAux_count_zero (L : Catalog) (emailOk : String → Bool)
    (i : Nat) (fs : List Field) (e : Ev)
    (he : ∀ j, e ≠ Ev.fieldEval j) :
    (validateFieldsAux L emailOk i fs).2.2.count e = 0 := by
  rw [List.count_eq_zero]
  intro hmem
  obtain ⟨j, hj⟩ := validateFieldsAux_events L emailOk i fs e hmem
  exact he j hj

/-- C8: with `afterValidation` and `onValid` configured as functions, every
pass invokes `afterValidation` exactly once (whatever the validity outcome),
and invokes `onValid` if and only if `formIsValid` holds on the
post-evaluation form at the decide step. -/
theorem C8_afterValidation_once_onValid_iff (emailOk : String → Bool)
    (v : Validator) (hafter : v.afterValidation = Hook.fn)
    (hon : v.onValid = Hook.fn) :
    ((runFormValidation emailOk v).2.count Ev.afterHook = 1) ∧
      (Ev.onValidHook ∈ (runFormValidation emailOk v).2 ↔
        formIsValid
          (validateAllFields v.L emailOk (removeIncorrectState v.form)).1 =
          true) := by
  have htrace : (runFormValidation emailOk v).2 =
      Ev.reset ::
        ((validateAllFields v.L emailOk (removeIncorrectState v.form)).2 ++
          sendIfValidated
            { v with
              form :=
                (validateAllFields v.L emailOk
                  (removeIncorrectState v.form)).1 }) := rfl
  have hev0 : (validateAllFields v.L emailOk
      (removeIncorrectState v.form)).2.count Ev.afterHook = 0 := by
    simp only [validateAllFields]
    exact validateFieldsAux_count_zero v.L emailOk 0 _ Ev.afterHook
      (by intro j h; cases h)
  have hevmem : Ev.onValidHook ∉
      (validateAllFields v.L emailOk (removeIncorrectState v.form)).2 := by
    intro hmem
    simp only [validateAllFields] at hmem
    obtain ⟨j, hj⟩ := validateFieldsAux_events v.L emailOk 0 _ _ hmem
    cases hj
  constructor
  · rw [htrace]
    rw [List.count_cons, List.count_append, hev0]
    cases hb : v.beforeValidation <;>
      cases hvalid : formIsValid
        (validateAllFields v.L emailOk (removeIncorrectState v.form)).1 <;>
      cases ha : v.ajaxTruthy <;>
      simp [sendIfValidated, checkAndRunCallback, hafter, hon, hb, hvalid,
        ha, List.count_append, List.count_cons]
  · rw [htrace]
    simp only [List.mem_cons, List.mem_append]
    cases hb : v.beforeValidation <;>
      cases hvalid : formIsValid
        (validateAllFields v.L emailOk (removeIncorrectState v.form)).1 <;>
      cases ha : v.ajaxTruthy <;>
      simp [sendIfValidated, checkAndRunCallback, hafter, hon, hb, hvalid,
        ha, hevmem]

/-- A validator with `afterValidation` and `onValid` configured, over a form
with one required select field whose selected value is "2" (it passes, so the
pass is valid). -/
def passingValidator : Validator :=
  { L := enCatalog,
    afterValidation := Hook.fn,
    onValid := Hook.fn,
    form := { validFlag := false, fields := [okSelectField] } }

/-- C8 witness: the concrete passing validator invokes `afterValidation` once
and `onValid` exactly when the decide-step form is valid. -/
theorem C8_afterValidation_once_witness :
    ((runFormValidation (fun _ => false) passingValidator).2.count
        Ev.afterHook = 1) ∧
      (Ev.onValidHook ∈ (runFormValidation (fun _ => false)
          passingValidator).2 ↔
        formIsValid
          (validateAllFields passingValidator.L (fun _ => false)
            (removeIncorrectState passingValidator.form)).1 = true) :=
  C8_afterValidation_once_onValid_iff (fun _ => false) passingValidator rfl
    rfl

end HtmlFormValidation
